import Mathlib

/-!
Shallow embedding of the STUN codec in `src/codec.rs` (crate `stun3489`).

Byte buffers are `List Nat` (each entry a byte value); cursors over a
buffer are modelled by the unread suffix of the buffer, which matches the
observable behaviour of `std::io::Cursor` in this code: every read either
consumes bytes from the front or fails with an `UnexpectedEof`-kind error,
a relative seek skips bytes, and after any failed read the cursor is never
used again.  Machine integers are `Nat`; the bit-mask-and-shift byte
extractions of the source (`(addr & 0xff000000) >> 24` and friends) are
rendered with the arithmetically equal `addr / 2^24 % 256` forms.

The SHA-1 digest comes from the external `ring` crate; it is an external
dependency of the repository, so `read_binding_response` and
`StunCodec.decode` take the digest function as an explicit parameter
`sha1`.  `ring::constant_time::verify_slices_are_equal` is modelled by
list equality (its functional content; timing is outside this embedding).

Rust panics (`unwrap`, `unimplemented!`, `unreachable!`) are modelled by
`Option`: a function that can panic returns `none` in exactly the cases
where the Rust code would panic.
-/

namespace Stun

inductive ErrorKind where
  | unexpectedEof
  | invalidData
  | invalidInput
  | other
deriving DecidableEq, Repr

/-- `std::io::Error`, as the pair of its kind and message. -/
structure IoError where
  kind : ErrorKind
  msg : String
deriving DecidableEq, Repr

def eofError : IoError := ⟨.unexpectedEof, "failed to fill whole buffer"⟩

/-- A socket address: an IPv4 endpoint (four octets and a port), or an
IPv6 endpoint (address bits lumped into one `Nat`, plus a port). -/
inductive SockAddr where
  | v4 (a b c d : Nat) (port : Nat)
  | v6 (addr : Nat) (port : Nat)
deriving DecidableEq, Repr

inductive ChangeRequest where
  | ip
  | port
  | ipAndPort
deriving DecidableEq, Repr

structure BindRequest where
  response_address : Option SockAddr := none
  change_request : Option ChangeRequest := none
  username : Option (List Nat) := none
deriving DecidableEq, Repr

structure BindResponse where
  mapped_address : SockAddr
  source_address : SockAddr
  changed_address : SockAddr
  reflected_from : Option SockAddr
deriving DecidableEq, Repr

inductive Request where
  | bind (r : BindRequest)
  | sharedSecret
deriving DecidableEq, Repr

inductive Response where
  | bind (r : BindResponse)
deriving DecidableEq, Repr

inductive Attribute where
  | mappedAddress (s : SockAddr)
  | responseAddress (s : SockAddr)
  | changedAddress (s : SockAddr)
  | sourceAddress (s : SockAddr)
  | reflectedFrom (s : SockAddr)
  | changeRequest (r : ChangeRequest)
  | messageIntegrity (h : List Nat)
  | username (u : List Nat)
  | unknownOptional
deriving DecidableEq, Repr

def BINDING_REQUEST : Nat := 0x0001
def BINDING_RESPONSE : Nat := 0x0101
def BINDING_ERROR : Nat := 0x0111
def SHARED_SECRET_REQUEST : Nat := 0x0002
def SHARED_SECRET_RESPONSE : Nat := 0x0102
def SHARED_SECRET_ERROR : Nat := 0x0112

def MAPPED_ADDRESS : Nat := 0x0001
def RESPONSE_ADDRESS : Nat := 0x0002
def CHANGE_REQUEST : Nat := 0x0003
def SOURCE_ADDRESS : Nat := 0x0004
def CHANGED_ADDRESS : Nat := 0x0005
def USERNAME : Nat := 0x0006
def PASSWORD : Nat := 0x0007
def MESSAGE_INTEGRITY : Nat := 0x0008
def ERROR_CODE : Nat := 0x0009
def UNKNOWN_ATTRIBUTES : Nat := 0x000a
def REFLECTED_FROM : Nat := 0x000b

def CHANGE_REQUEST_IP : Nat := 0x20
def CHANGE_REQUEST_PORT : Nat := 0x40
def CHANGE_REQUEST_IP_AND_PORT : Nat := 0x60

/-- `byteorder::ReadBytesExt::read_u8` on the cursor. -/
def readU8 : List Nat → Except IoError (Nat × List Nat)
  | b :: rest => .ok (b, rest)
  | [] => .error eofError

/-- `read_u16::<NetworkEndian>`: two bytes, big endian. -/
def readU16 : List Nat → Except IoError (Nat × List Nat)
  | b1 :: b0 :: rest => .ok (b1 * 256 + b0, rest)
  | _ => .error eofError

/-- `read_u32::<NetworkEndian>`: four bytes, big endian. -/
def readU32 : List Nat → Except IoError (Nat × List Nat)
  | b3 :: b2 :: b1 :: b0 :: rest =>
      .ok (b3 * 16777216 + b2 * 65536 + b1 * 256 + b0, rest)
  | _ => .error eofError

/-- `read_u64::<NetworkEndian>`: eight bytes, big endian. -/
def readU64 : List Nat → Except IoError (Nat × List Nat)
  | b7 :: b6 :: b5 :: b4 :: b3 :: b2 :: b1 :: b0 :: rest =>
      .ok (b7 * 72057594037927936 + b6 * 281474976710656 + b5 * 1099511627776 +
            b4 * 4294967296 + b3 * 16777216 + b2 * 65536 + b1 * 256 + b0, rest)
  | _ => .error eofError

/-- `Read::read_exact` into an `n`-byte array. -/
def readExact (n : Nat) (c : List Nat) : Except IoError (List Nat × List Nat) :=
  if n ≤ c.length then .ok (c.take n, c.drop n) else .error eofError

/-- `Attribute::read_address`: reserved byte, family byte, port, 4 address
bytes; the family check happens after all reads, as in the source. -/
def Attribute.read_address (c : List Nat) : Except IoError (SockAddr × List Nat) :=
  match readU8 c with
  | .error e => .error e
  | .ok (_, c) =>
  match readU8 c with
  | .error e => .error e
  | .ok (typ, c) =>
  match readU16 c with
  | .error e => .error e
  | .ok (port, c) =>
  match readU32 c with
  | .error e => .error e
  | .ok (addr, c) =>
  if typ ≠ 0x01 then .error ⟨.invalidData, "Invalid address family"⟩
  else
    -- b0 = (addr & 0xff000000) >> 24, ..., b3 = addr & 0xff
    .ok (SockAddr.v4 (addr / 16777216 % 256) (addr / 65536 % 256)
          (addr / 256 % 256) (addr % 256) port, c)

/-- `Attribute::read`: type/length pair, then dispatch on the type code. -/
def Attribute.read (c : List Nat) : Except IoError (Attribute × List Nat) :=
  match readU16 c with
  | .error e => .error e
  | .ok (typ, c) =>
  match readU16 c with
  | .error e => .error e
  | .ok (len, c) =>
  if typ = MAPPED_ADDRESS then
    match Attribute.read_address c with
    | .error e => .error e
    | .ok (s, c) => .ok (.mappedAddress s, c)
  else if typ = RESPONSE_ADDRESS then
    match Attribute.read_address c with
    | .error e => .error e
    | .ok (s, c) => .ok (.responseAddress s, c)
  else if typ = CHANGED_ADDRESS then
    match Attribute.read_address c with
    | .error e => .error e
    | .ok (s, c) => .ok (.changedAddress s, c)
  else if typ = SOURCE_ADDRESS then
    match Attribute.read_address c with
    | .error e => .error e
    | .ok (s, c) => .ok (.sourceAddress s, c)
  else if typ = REFLECTED_FROM then
    match Attribute.read_address c with
    | .error e => .error e
    | .ok (s, c) => .ok (.reflectedFrom s, c)
  else if typ = MESSAGE_INTEGRITY then
    match readExact 20 c with
    | .error e => .error e
    | .ok (hash, c) => .ok (.messageIntegrity hash, c)
  else if typ = CHANGE_REQUEST then
    match readU32 c with
    | .error e => .error e
    | .ok (w, c) =>
      if w = CHANGE_REQUEST_IP then .ok (.changeRequest .ip, c)
      else if w = CHANGE_REQUEST_PORT then .ok (.changeRequest .port, c)
      else if w = CHANGE_REQUEST_IP_AND_PORT then .ok (.changeRequest .ipAndPort, c)
      else .error ⟨.invalidData, "CHANGE_REQUEST not understood"⟩
  else if typ ≤ 0x7fff then .error ⟨.invalidData, "Unknown mandatory field"⟩
  else
    -- c.seek(SeekFrom::Current(len as i64)): skip `len` declared bytes
    .ok (.unknownOptional, c.drop len)

/-- Big-endian byte list of a `u16` value. -/
def encodeU16 (n : Nat) : List Nat := [n / 256 % 256, n % 256]

/-- Big-endian byte list of a `u32` value. -/
def encodeU32 (n : Nat) : List Nat :=
  [n / 16777216 % 256, n / 65536 % 256, n / 256 % 256, n % 256]

/-- Big-endian byte list of a `u64` value. -/
def encodeU64 (n : Nat) : List Nat :=
  [n / 72057594037927936 % 256, n / 281474976710656 % 256,
   n / 1099511627776 % 256, n / 4294967296 % 256,
   n / 16777216 % 256, n / 65536 % 256, n / 256 % 256, n % 256]

/-- `Attribute::encode_change_request` (its writes cannot fail). -/
def Attribute.encode_change_request : ChangeRequest → List Nat
  | .ip => encodeU32 CHANGE_REQUEST_IP
  | .port => encodeU32 CHANGE_REQUEST_PORT
  | .ipAndPort => encodeU32 CHANGE_REQUEST_IP_AND_PORT

/-- `Attribute::encode_address`: reserved 0, family 1, port, 4 octets for
an IPv4 endpoint; IPv6 endpoints are rejected with `InvalidInput`. -/
def Attribute.encode_address : SockAddr → Except IoError (List Nat)
  | .v4 a b c d port => .ok ([0x00, 0x01] ++ encodeU16 port ++ [a, b, c, d])
  | .v6 _ _ => .error ⟨.invalidInput, "STUN does not support IPv6"⟩

/-- The `u16 type | u16 length | body` framing written after each body. -/
def tlv (typ : Nat) (body : List Nat) : List Nat :=
  encodeU16 typ ++ encodeU16 body.length ++ body

def tlvOf (typ : Nat) (body : Except IoError (List Nat)) : Except IoError (List Nat) :=
  match body with
  | .error e => .error e
  | .ok b => .ok (tlv typ b)

/-- `Attribute::encode`, producing the TLV bytes appended to the buffer.
The `UnknownOptional` arm is `unreachable!()` in the source, i.e. a panic,
hence `none`.  The username body is padded with zeros to the next multiple
of four bytes (the source computes this via `f64` ceiling). -/
def Attribute.encode : Attribute → Option (Except IoError (List Nat))
  | .mappedAddress s => some (tlvOf MAPPED_ADDRESS (Attribute.encode_address s))
  | .responseAddress s => some (tlvOf RESPONSE_ADDRESS (Attribute.encode_address s))
  | .changedAddress s => some (tlvOf CHANGED_ADDRESS (Attribute.encode_address s))
  | .sourceAddress s => some (tlvOf SOURCE_ADDRESS (Attribute.encode_address s))
  | .reflectedFrom s => some (tlvOf REFLECTED_FROM (Attribute.encode_address s))
  | .messageIntegrity h => some (.ok (tlv MESSAGE_INTEGRITY h))
  | .username u =>
      let total_len := 4 * ((u.length + 3) / 4)
      some (.ok (tlv USERNAME (u ++ List.replicate (total_len - u.length) 0)))
  | .changeRequest r => some (.ok (tlv CHANGE_REQUEST (Attribute.encode_change_request r)))
  | .unknownOptional => none

/-- One `Attribute::encode(&mut buf)?` step of `BindRequest::encode`. -/
def appendEnc (acc : Option (Except IoError (List Nat))) (a : Attribute) :
    Option (Except IoError (List Nat)) :=
  match acc with
  | none => none
  | some (.error e) => some (.error e)
  | some (.ok buf) =>
    match a.encode with
    | none => none
    | some (.error e) => some (.error e)
    | some (.ok b) => some (.ok (buf ++ b))

def appendOptEnc (acc : Option (Except IoError (List Nat))) (oa : Option Attribute) :
    Option (Except IoError (List Nat)) :=
  match oa with
  | none => acc
  | some a => appendEnc acc a

/-- `BindRequest::encode`: present optional fields in declaration order
response_address, change_request, username. -/
def BindRequest.encode (r : BindRequest) : Option (Except IoError (List Nat)) :=
  appendOptEnc
    (appendOptEnc
      (appendOptEnc (some (.ok [])) (r.response_address.map Attribute.responseAddress))
      (r.change_request.map Attribute.changeRequest))
    (r.username.map Attribute.username)

/-- The five accumulator variables of `read_binding_response`. -/
structure RespState where
  mapped_address : Option SockAddr := none
  source_address : Option SockAddr := none
  changed_address : Option SockAddr := none
  message_integrity : Option (List Nat) := none
  reflected_from : Option SockAddr := none
deriving DecidableEq, Repr

def unknownMandatoryError : IoError := ⟨.invalidData, "Unknown mandatory attribute!"⟩

/-- The attribute loop of `read_binding_response`.  The `fuel` argument is
only a termination device: each successful `Attribute::read` consumes at
least four bytes, so `c.length + 1` units never run out.  A duplicate of a
guarded attribute falls through every guarded arm to the wildcard arm, as
in the source `match`. -/
def read_attrs : Nat → RespState → List Nat → Except IoError RespState
  | 0, _, _ => .error ⟨.other, "out of fuel"⟩
  | fuel + 1, st, c =>
    match Attribute.read c with
    | .ok (.mappedAddress s, c2) =>
        if st.mapped_address.isNone then
          read_attrs fuel { st with mapped_address := some s } c2
        else .error unknownMandatoryError
    | .ok (.sourceAddress s, c2) =>
        if st.source_address.isNone then
          read_attrs fuel { st with source_address := some s } c2
        else .error unknownMandatoryError
    | .ok (.changedAddress s, c2) =>
        if st.changed_address.isNone then
          read_attrs fuel { st with changed_address := some s } c2
        else .error unknownMandatoryError
    | .ok (.reflectedFrom s, c2) =>
        if st.reflected_from.isNone then
          read_attrs fuel { st with reflected_from := some s } c2
        else .error unknownMandatoryError
    | .ok (.messageIntegrity h, c2) =>
        if st.message_integrity.isNone then
          read_attrs fuel { st with message_integrity := some h } c2
        else .error unknownMandatoryError
    | .ok (.unknownOptional, c2) => read_attrs fuel st c2
    | .error e =>
        if e.kind = .unexpectedEof then .ok st else .error unknownMandatoryError
    | .ok (_, _) => .error unknownMandatoryError

/-- The `BindResponse { ... }` construction at the end of
`read_binding_response`, with its early returns for missing mandatory
attributes, evaluated in source order. -/
def finishResponse (st : RespState) : Except IoError BindResponse :=
  match st.mapped_address with
  | none => .error ⟨.invalidData, "MappedAddress missing!"⟩
  | some ma =>
  match st.source_address with
  | none => .error ⟨.invalidData, "SourceAddress missing!"⟩
  | some sa =>
  match st.changed_address with
  | none => .error ⟨.invalidData, "ChangedAddress missing!"⟩
  | some ca => .ok ⟨ma, sa, ca, st.reflected_from⟩

/-- `StunCodec::read_binding_response`: run the attribute loop, then the
integrity check over all bytes of `msg` but the last 24, then build the
response. -/
def read_binding_response (sha1 : List Nat → List Nat) (msg : List Nat)
    (c : List Nat) : Except IoError BindResponse :=
  match read_attrs (c.length + 1) {} c with
  | .error e => .error e
  | .ok st =>
    match st.message_integrity with
    | some expected =>
        let actual := sha1 (msg.take (msg.length - 24))
        if actual ≠ expected then .error ⟨.invalidData, "Message integrity violated!"⟩
        else finishResponse st
    | none => finishResponse st

/-- `StunCodec::decode` (the `UdpCodec` impl): header, transaction-id
check, dispatch on the message type.  The `unimplemented!()` arms panic,
hence `none`. -/
def StunCodec.decode (sha1 : List Nat → List Nat) (msg : List Nat) :
    Option (Except IoError (Nat × Response)) :=
  match readU16 msg with
  | .error e => some (.error e)
  | .ok (msg_type, c) =>
  match readU16 c with
  | .error e => some (.error e)
  | .ok (_, c) =>
  match readU64 c with
  | .error e => some (.error e)
  | .ok (trans_id1, c) =>
  match readU64 c with
  | .error e => some (.error e)
  | .ok (trans_id2, c) =>
  if trans_id1 ≠ 0 then some (.error ⟨.invalidData, "Invalid transaction ID!"⟩)
  else if msg_type = BINDING_RESPONSE then
    some ((read_binding_response sha1 msg c).map (fun r => (trans_id2, Response.bind r)))
  else if msg_type = BINDING_ERROR then none
  else if msg_type = SHARED_SECRET_RESPONSE then none
  else if msg_type = SHARED_SECRET_ERROR then none
  else some (.error ⟨.invalidData, "Unknown message type!"⟩)

/-- `StunCodec::encode` (the `UdpCodec` impl): type code, body length as
`u16`, zero transaction half, correlator, attribute bytes.  The source
`unwrap`s the `BindRequest::encode` result and `unimplemented!()`s on any
other request, so those cases are `none` (panic). -/
def StunCodec.encode (trans_id : Nat) (dst : SockAddr) (req : Request) :
    Option (List Nat × SockAddr) :=
  match req with
  | .bind br =>
    match br.encode with
    | some (.ok m) =>
        some (encodeU16 BINDING_REQUEST ++ encodeU16 m.length ++
              encodeU64 0 ++ encodeU64 trans_id ++ m, dst)
    | _ => none
  | .sharedSecret => none

/-- A trivial stand-in digest function (never consulted on messages
without a MessageIntegrity attribute). -/
def zeroHash : List Nat → List Nat := fun _ => []

/-- A digest function that returns the fixed 20-byte value `7,…,7`. -/
def constHash : List Nat → List Nat := fun _ => List.replicate 20 7

/-- A well-formed Binding Response datagram: header with type 0x0101 and
zero transaction id, then MappedAddress, SourceAddress and ChangedAddress
attributes. -/
def validResponseBytes : List Nat :=
  [0x01, 0x01, 0x00, 0x24,
   0, 0, 0, 0, 0, 0, 0, 0,
   0, 0, 0, 0, 0, 0, 0, 0,
   0x00, 0x01, 0x00, 0x08, 0x00, 0x01, 0x00, 80, 1, 2, 3, 4,
   0x00, 0x04, 0x00, 0x08, 0x00, 0x01, 0x00, 81, 5, 6, 7, 8,
   0x00, 0x05, 0x00, 0x08, 0x00, 0x01, 0x00, 82, 9, 10, 11, 12]

/-- The decoded form of `validResponseBytes`. -/
def sampleResponse : BindResponse :=
  ⟨SockAddr.v4 1 2 3 4 80, SockAddr.v4 5 6 7 8 81, SockAddr.v4 9 10 11 12 82, none⟩

/-- `validResponseBytes` with a trailing MessageIntegrity attribute whose
hash is the fixed value `7,…,7`. -/
def integrityMsg : List Nat :=
  validResponseBytes ++ ([0x00, 0x08, 0x00, 0x14] ++ List.replicate 20 7)

/-- Whether a `BindRequest.response_address` survives
`Attribute::encode_address` (absent, or an IPv4 endpoint). -/
def respAddrEncodable : Option SockAddr → Bool
  | some (.v6 _ _) => false
  | _ => true

end Stun

open Stun

/-- `readU8` succeeds exactly by consuming one byte. -/
theorem readU8_ok {c : List Nat} {v : Nat} {c2 : List Nat}
    (h : readU8 c = .ok (v, c2)) : c2 = c.drop 1 ∧ 1 ≤ c.length := by
  match c with
  | [] => simp [readU8, eofError] at h
  | b :: rest =>
      simp [readU8] at h
      obtain ⟨h1, h2⟩ := h
      subst h2
      simp

/-- `readU16` succeeds exactly by consuming two bytes. -/
theorem readU16_ok {c : List Nat} {v : Nat} {c2 : List Nat}
    (h : readU16 c = .ok (v, c2)) : c2 = c.drop 2 ∧ 2 ≤ c.length := by
  match c with
  | [] => simp [readU16, eofError] at h
  | [b] => simp [readU16, eofError] at h
  | b1 :: b0 :: rest =>
      simp [readU16] at h
      obtain ⟨h1, h2⟩ := h
      subst h2
      simp

/-- `readU32` succeeds exactly by consuming four bytes. -/
theorem readU32_ok {c : List Nat} {v : Nat} {c2 : List Nat}
    (h : readU32 c = .ok (v, c2)) : c2 = c.drop 4 ∧ 4 ≤ c.length := by
  match c with
  | [] => simp [readU32, eofError] at h
  | [b] => simp [readU32, eofError] at h
  | [b, b2] => simp [readU32, eofError] at h
  | [b, b2, b3] => simp [readU32, eofError] at h
  | b3 :: b2 :: b1 :: b0 :: rest =>
      simp [readU32] at h
      obtain ⟨h1, h2⟩ := h
      subst h2
      simp

/-- `readExact` succeeds exactly by consuming `n` bytes. -/
theorem readExact_ok {n : Nat} {c : List Nat} {v c2 : List Nat}
    (h : readExact n c = .ok (v, c2)) : c2 = c.drop n ∧ n ≤ c.length := by
  rw [readExact] at h
  split at h
  · simp at h
    obtain ⟨h1, h2⟩ := h
    subst h2
    exact ⟨rfl, by assumption⟩
  · simp at h

/-- `Attribute.read_address` succeeds exactly by consuming eight bytes. -/
theorem read_address_ok {c : List Nat} {s : SockAddr} {c2 : List Nat}
    (h : Attribute.read_address c = .ok (s, c2)) : c2 = c.drop 8 ∧ 8 ≤ c.length := by
  rw [Attribute.read_address] at h
  split at h
  · simp at h
  next r1 hr1 =>
  split at h
  · simp at h
  next typ r2 hr2 =>
  split at h
  · simp at h
  next port r3 hr3 =>
  split at h
  · simp at h
  next addr r4 hr4 =>
  obtain ⟨e1, l1⟩ := readU8_ok hr1
  obtain ⟨e2, l2⟩ := readU8_ok hr2
  obtain ⟨e3, l3⟩ := readU16_ok hr3
  obtain ⟨e4, l4⟩ := readU32_ok hr4
  split at h
  · simp at h
  · simp at h
    obtain ⟨h1, h2⟩ := h
    subst h2
    subst e4
    subst e3
    subst e2
    subst e1
    simp [List.drop_drop] at l2 l3 l4 ⊢
    omega

/-- C9: encoding `BindRequest { change_request: IpAndPort, username: b"foo" }`
with correlator 0x123456789 and destination 0.0.0.0:0 produces exactly the
36 bytes of the claim (header, change-request TLV, padded username TLV). -/
theorem encode_binding_request_concrete :
    StunCodec.encode 0x123456789 (SockAddr.v4 0 0 0 0 0)
      (.bind ⟨none, some .ipAndPort, some [0x66, 0x6f, 0x6f]⟩) =
    some ([0x00, 0x01, 0x00, 0x10,
           0x00, 0x00, 0x00, 0x00, 0x00, 0x00, 0x00, 0x00,
           0x00, 0x00, 0x00, 0x01, 0x23, 0x45, 0x67, 0x89,
           0x00, 0x03, 0x00, 0x04, 0x00, 0x00, 0x00, 0x60,
           0x00, 0x06, 0x00, 0x04, 0x66, 0x6f, 0x6f, 0x00],
          SockAddr.v4 0 0 0 0 0) := rfl

/-- C2 (amended): in the binding-response attribute loop, a second
occurrence of an address-typed attribute or of MessageIntegrity is not
silently ignored: it falls through every guarded arm to the wildcard arm
and aborts decoding with the hard error "Unknown mandatory attribute!". -/
theorem duplicate_attribute_is_hard_error :
    (∀ (fuel : Nat) (st : RespState) (c c2 : List Nat) (s a : SockAddr),
       st.mapped_address = some a →
       Attribute.read c = .ok (.mappedAddress s, c2) →
       read_attrs (fuel + 1) st c = .error unknownMandatoryError) ∧
    (∀ (fuel : Nat) (st : RespState) (c c2 : List Nat) (s a : SockAddr),
       st.source_address = some a →
       Attribute.read c = .ok (.sourceAddress s, c2) →
       read_attrs (fuel + 1) st c = .error unknownMandatoryError) ∧
    (∀ (fuel : Nat) (st : RespState) (c c2 : List Nat) (s a : SockAddr),
       st.changed_address = some a →
       Attribute.read c = .ok (.changedAddress s, c2) →
       read_attrs (fuel + 1) st c = .error unknownMandatoryError) ∧
    (∀ (fuel : Nat) (st : RespState) (c c2 : List Nat) (s a : SockAddr),
       st.reflected_from = some a →
       Attribute.read c = .ok (.reflectedFrom s, c2) →
       read_attrs (fuel + 1) st c = .error unknownMandatoryError) ∧
    (∀ (fuel : Nat) (st : RespState) (c c2 : List Nat) (h0 h1 : List Nat),
       st.message_integrity = some h0 →
       Attribute.read c = .ok (.messageIntegrity h1, c2) →
       read_attrs (fuel + 1) st c = .error unknownMandatoryError) := by
  refine ⟨?_, ?_, ?_, ?_, ?_⟩ <;>
    · intro fuel st c c2 s a hst hread
      simp [read_attrs, hread, hst]

/-- C2 counterexample: a Binding Response whose attribute stream repeats
MappedAddress (then carries all mandatory attributes) does not decode with
first-occurrence-wins; it fails hard. -/
theorem duplicate_attribute_counterexample :
    StunCodec.decode zeroHash
      [0x01, 0x01, 0x00, 0x24,
       0, 0, 0, 0, 0, 0, 0, 0,
       0, 0, 0, 0, 0, 0, 0, 0,
       0x00, 0x01, 0x00, 0x08, 0x00, 0x01, 0x00, 80, 1, 2, 3, 4,
       0x00, 0x01, 0x00, 0x08, 0x00, 0x01, 0x00, 80, 1, 2, 3, 4,
       0x00, 0x04, 0x00, 0x08, 0x00, 0x01, 0x00, 81, 5, 6, 7, 8,
       0x00, 0x05, 0x00, 0x08, 0x00, 0x01, 0x00, 82, 9, 10, 11, 12] =
    some (.error ⟨.invalidData, "Unknown mandatory attribute!"⟩) := rfl

/-- C2 witness: one concrete loop step with `mapped_address` already set
and a second MappedAddress attribute next in the stream. -/
theorem duplicate_attribute_is_hard_error_witness :
    read_attrs 1 ⟨some (SockAddr.v4 0 0 0 0 0), none, none, none, none⟩
      [0x00, 0x01, 0x00, 0x08, 0x00, 0x01, 0x00, 80, 1, 2, 3, 4] =
      .error unknownMandatoryError :=
  duplicate_attribute_is_hard_error.1 0
    ⟨some (SockAddr.v4 0 0 0 0 0), none, none, none, none⟩
    [0x00, 0x01, 0x00, 0x08, 0x00, 0x01, 0x00, 80, 1, 2, 3, 4] []
    (SockAddr.v4 1 2 3 4 80) (SockAddr.v4 0 0 0 0 0) rfl rfl

/-- C3 (amended): every `UnexpectedEof`-kind failure of `Attribute::read`
terminates the attribute loop successfully — both end-of-buffer at the
type/length pair (second conjunct: fewer than 4 bytes remain) and
truncation in the middle of an attribute body; mid-attribute truncation is
not distinguished and is not a hard failure. -/
theorem eof_terminates_attribute_loop :
    (∀ (fuel : Nat) (st : RespState) (c : List Nat) (e : IoError),
       Attribute.read c = .error e → e.kind = .unexpectedEof →
       read_attrs (fuel + 1) st c = .ok st) ∧
    (∀ (fuel : Nat) (st : RespState) (c : List Nat),
       c.length < 4 → read_attrs (fuel + 1) st c = .ok st) := by
  constructor
  · intro fuel st c e hread hkind
    simp [read_attrs, hread, hkind]
  · intro fuel st c hlen
    rcases c with _ | ⟨b1, _ | ⟨b0, _ | ⟨l1, _ | ⟨l0, rest⟩⟩⟩⟩
    · simp [read_attrs, Attribute.read, readU16, eofError]
    · simp [read_attrs, Attribute.read, readU16, eofError]
    · simp [read_attrs, Attribute.read, readU16, eofError]
    · simp [read_attrs, Attribute.read, readU16, eofError]
    · simp at hlen
      omega

/-- C3 counterexample: a complete Binding Response followed by an
attribute truncated in mid-body (a ReflectedFrom header and only two of
its eight address bytes) decodes successfully instead of failing hard. -/
theorem mid_attribute_truncation_counterexample :
    StunCodec.decode zeroHash (validResponseBytes ++ [0x00, 0x0b, 0x00, 0x08, 0x00, 0x01]) =
      some (.ok (0, .bind sampleResponse)) := rfl

/-- C3 witness: an empty attribute stream ends the loop successfully. -/
theorem eof_terminates_attribute_loop_witness :
    read_attrs 1 {} ([] : List Nat) = .ok {} :=
  eof_terminates_attribute_loop.1 0 {} [] eofError rfl rfl

/-- C4 (amended): `StunCodec::encode` succeeds for every Bind request
whose `response_address` is absent or IPv4 (every other encode path is
total); with an IPv6 `response_address`, `BindRequest::encode` returns the
unsupported-address-family error and the `unwrap` in `StunCodec::encode`
panics. -/
theorem encode_total_on_ipv4_bind_requests
    (t : Nat) (dst : SockAddr) (br : BindRequest)
    (h : respAddrEncodable br.response_address = true) :
    ∃ out, StunCodec.encode t dst (.bind br) = some (out, dst) := by
  obtain ⟨ra, cr, u⟩ := br
  cases ra with
  | none => cases cr <;> cases u <;> exact ⟨_, rfl⟩
  | some sa =>
      cases sa with
      | v4 a b c d p => cases cr <;> cases u <;> exact ⟨_, rfl⟩
      | v6 a p => simp [respAddrEncodable] at h

/-- C4 counterexample: a Bind request with an IPv6 `response_address`
makes `StunCodec::encode` panic (modelled as `none`) instead of returning
a buffer. -/
theorem encode_ipv6_response_address_counterexample :
    StunCodec.encode 0 (SockAddr.v4 0 0 0 0 0) (.bind ⟨some (.v6 0 0), none, none⟩) = none := rfl

/-- C4 witness: the default (all-absent) Bind request encodes. -/
theorem encode_total_on_ipv4_bind_requests_witness :
    ∃ out, StunCodec.encode 5 (SockAddr.v4 9 9 9 9 9) (.bind {}) =
      some (out, SockAddr.v4 9 9 9 9 9) :=
  encode_total_on_ipv4_bind_requests 5 (SockAddr.v4 9 9 9 9 9) {} rfl

/-- C8 (amended): the address record codec is a bijection on IPv4
endpoints (well-formed 8-byte records have reserved byte 0, family byte 1
and byte-range fields); encoding an IPv6 endpoint fails with the
`InvalidInput` error "STUN does not support IPv6", while decoding a family
byte ≠ 1 fails with the `InvalidData` error "Invalid address family" —
two different error kinds. -/
theorem address_codec_bijection_and_failures :
    (∀ a b c d p : Nat, a < 256 → b < 256 → c < 256 → d < 256 → p < 65536 →
       Attribute.encode_address (.v4 a b c d p) =
         .ok [0, 1, p / 256, p % 256, a, b, c, d] ∧
       Attribute.read_address [0, 1, p / 256, p % 256, a, b, c, d] =
         .ok (.v4 a b c d p, [])) ∧
    (∀ p1 p0 x0 x1 x2 x3 : Nat,
       p1 < 256 → p0 < 256 → x0 < 256 → x1 < 256 → x2 < 256 → x3 < 256 →
       Attribute.read_address [0, 1, p1, p0, x0, x1, x2, x3] =
         .ok (.v4 x0 x1 x2 x3 (p1 * 256 + p0), []) ∧
       Attribute.encode_address (.v4 x0 x1 x2 x3 (p1 * 256 + p0)) =
         .ok [0, 1, p1, p0, x0, x1, x2, x3]) ∧
    (∀ a p : Nat, Attribute.encode_address (.v6 a p) =
       .error ⟨.invalidInput, "STUN does not support IPv6"⟩) ∧
    (∀ (r fam p1 p0 x0 x1 x2 x3 : Nat) (rest : List Nat), fam ≠ 1 →
       Attribute.read_address (r :: fam :: p1 :: p0 :: x0 :: x1 :: x2 :: x3 :: rest) =
         .error ⟨.invalidData, "Invalid address family"⟩) := by
  refine ⟨?_, ?_, ?_, ?_⟩
  · intro a b c d p ha hb hc hd hp
    constructor
    · simp [Attribute.encode_address, encodeU16]
      omega
    · simp [Attribute.read_address, readU8, readU16, readU32]
      omega
  · intro p1 p0 x0 x1 x2 x3 h1 h2 h3 h4 h5 h6
    constructor
    · simp [Attribute.read_address, readU8, readU16, readU32]
      omega
    · simp [Attribute.encode_address, encodeU16]
      omega
  · intro a p
    rfl
  · intro r fam p1 p0 x0 x1 x2 x3 rest hfam
    simp [Attribute.read_address, readU8, readU16, readU32, hfam]

/-- C8 counterexample: the two address-family failures do not carry the
same error kind — encode rejects IPv6 with `InvalidInput`, decode rejects
family byte 2 with `InvalidData`. -/
theorem address_error_kind_counterexample :
    Attribute.encode_address (SockAddr.v6 0 0) =
      .error ⟨.invalidInput, "STUN does not support IPv6"⟩ ∧
    Attribute.read_address [0, 2, 0, 0, 0, 0, 0, 0] =
      .error ⟨.invalidData, "Invalid address family"⟩ ∧
    ErrorKind.invalidInput ≠ ErrorKind.invalidData := by
  exact ⟨rfl, rfl, by decide⟩

/-- C8 witness: the bijection at the endpoint 127.0.0.1:54321. -/
theorem address_codec_bijection_and_failures_witness :
    Attribute.encode_address (SockAddr.v4 127 0 0 1 54321) =
      .ok [0, 1, 212, 49, 127, 0, 0, 1] ∧
    Attribute.read_address [0, 1, 212, 49, 127, 0, 0, 1] =
      .ok (.v4 127 0 0 1 54321, []) := by
  have h := address_codec_bijection_and_failures.1 127 0 0 1 54321
    (by decide) (by decide) (by decide) (by decide) (by decide)
  simpa using h

/-- C1 (amended): decode cannot reproduce an encoded Bind request at all —
`StunCodec::decode` only handles Binding Responses, so for every encoded
Bind request it fails with the "Unknown message type!" error (the encoded
type code 0x0001 is not a decodable message type). -/
theorem bind_request_roundtrip_fails_unknown_message_type
    (sha1 : List Nat → List Nat) (t : Nat) (dst dst2 : SockAddr)
    (br : BindRequest) (bytes : List Nat)
    (henc : StunCodec.encode t dst (.bind br) = some (bytes, dst2)) :
    StunCodec.decode sha1 bytes = some (.error ⟨.invalidData, "Unknown message type!"⟩) := by
  rcases hbe : br.encode with _ | r
  · simp [StunCodec.encode, hbe] at henc
  · rcases r with e | m
    · simp [StunCodec.encode, hbe] at henc
    · simp [StunCodec.encode, hbe] at henc
      obtain ⟨rfl, rfl⟩ := henc
      simp [StunCodec.decode, encodeU16, encodeU64, readU16, readU64,
            BINDING_REQUEST, BINDING_RESPONSE, BINDING_ERROR,
            SHARED_SECRET_RESPONSE, SHARED_SECRET_ERROR]

/-- C1 counterexample: encoding the all-absent Bind request and decoding
the produced bytes does not yield a message with the same attributes; it
fails with "Unknown message type!". -/
theorem bind_request_roundtrip_counterexample :
    StunCodec.encode 0 (SockAddr.v4 0 0 0 0 0) (.bind {}) =
      some ([0x00, 0x01, 0x00, 0x00,
             0, 0, 0, 0, 0, 0, 0, 0,
             0, 0, 0, 0, 0, 0, 0, 0], SockAddr.v4 0 0 0 0 0) ∧
    StunCodec.decode zeroHash
      [0x00, 0x01, 0x00, 0x00,
       0, 0, 0, 0, 0, 0, 0, 0,
       0, 0, 0, 0, 0, 0, 0, 0] =
      some (.error ⟨.invalidData, "Unknown message type!"⟩) := ⟨rfl, rfl⟩

/-- C1 witness: the amended statement at correlator 9 and the default
Bind request. -/
theorem bind_request_roundtrip_fails_witness :
    StunCodec.decode zeroHash
      [0x00, 0x01, 0x00, 0x00,
       0, 0, 0, 0, 0, 0, 0, 0,
       0, 0, 0, 0, 0, 0, 0, 9] =
      some (.error ⟨.invalidData, "Unknown message type!"⟩) :=
  bind_request_roundtrip_fails_unknown_message_type zeroHash 9
    (SockAddr.v4 0 0 0 0 0) (SockAddr.v4 0 0 0 0 0) {} _ rfl

/-- C5: when the attribute loop of a binding response produced a
MessageIntegrity hash (and the three mandatory addresses), decoding
recomputes the digest over all message bytes except the final 24 and
compares it with the received hash: a match succeeds, a mismatch fails
with "Message integrity violated!".  (The constant-time property of the
comparison is a timing property; its functional content — equality — is
what is modelled.) -/
theorem integrity_check_behaviour
    (sha1 : List Nat → List Nat) (msg c : List Nat) (st : RespState)
    (hsh : List Nat) (ma sa ca : SockAddr)
    (hloop : read_attrs (c.length + 1) {} c = .ok st)
    (hmi : st.message_integrity = some hsh)
    (hma : st.mapped_address = some ma)
    (hsa : st.source_address = some sa)
    (hca : st.changed_address = some ca) :
    read_binding_response sha1 msg c =
      (if sha1 (msg.take (msg.length - 24)) = hsh
       then .ok ⟨ma, sa, ca, st.reflected_from⟩
       else .error ⟨.invalidData, "Message integrity violated!"⟩) := by
  simp only [read_binding_response, hloop, hmi]
  by_cases hx : sha1 (msg.take (msg.length - 24)) = hsh
  · simp [hx, finishResponse, hma, hsa, hca]
  · simp [hx]

/-- C5 witness: a binding response carrying the matching hash decodes
successfully. -/
theorem integrity_check_behaviour_witness :
    read_binding_response constHash integrityMsg (integrityMsg.drop 20) =
      .ok sampleResponse := by
  have h := integrity_check_behaviour constHash integrityMsg (integrityMsg.drop 20)
    ⟨some (SockAddr.v4 1 2 3 4 80), some (SockAddr.v4 5 6 7 8 81),
     some (SockAddr.v4 9 10 11 12 82), some (List.replicate 20 7), none⟩
    (List.replicate 20 7) (SockAddr.v4 1 2 3 4 80) (SockAddr.v4 5 6 7 8 81)
    (SockAddr.v4 9 10 11 12 82) rfl rfl rfl rfl rfl
  rw [h]
  simp [constHash, sampleResponse]

/-- Helper for the missing-mandatory analysis: `finishResponse` on a
state with an unset mandatory address yields one of the three missing
errors (in source evaluation order). -/
theorem finishResponse_missing (st : RespState)
    (hmiss : st.mapped_address = none ∨ st.source_address = none ∨ st.changed_address = none) :
    finishResponse st = .error ⟨.invalidData, "MappedAddress missing!"⟩ ∨
    finishResponse st = .error ⟨.invalidData, "SourceAddress missing!"⟩ ∨
    finishResponse st = .error ⟨.invalidData, "ChangedAddress missing!"⟩ := by
  rcases hmiss with hm | hs | hc
  · left
    simp only [finishResponse, hm]
  · cases hom : st.mapped_address with
    | none =>
        left
        simp only [finishResponse, hom]
    | some ma =>
        right; left
        simp only [finishResponse, hom, hs]
  · cases hom : st.mapped_address with
    | none =>
        left
        simp only [finishResponse, hom]
    | some ma =>
        cases hos : st.source_address with
        | none =>
            right; left
            simp only [finishResponse, hom, hos]
        | some sa =>
            right; right
            simp only [finishResponse, hom, hos, hc]

/-- C6 (amended): a binding-response attribute stream that leaves
MappedAddress, SourceAddress or ChangedAddress unset makes decoding fail
with the corresponding missing-mandatory-attribute error when no
MessageIntegrity hash was collected or the collected hash matches the
recomputed digest (first conjunct); but the integrity check runs before
the missing-address checks, so with a collected hash that mismatches the
digest, decoding fails with "Message integrity violated!" instead, even
if mandatory addresses are missing (second conjunct).  Appending an
unknown attribute with the optional type code 0xffff to a complete
Binding Response does not prevent successful decoding — it is skipped
(third conjunct). -/
theorem missing_mandatory_and_unknown_optional :
    (∀ (sha1 : List Nat → List Nat) (msg c : List Nat) (st : RespState),
       read_attrs (c.length + 1) {} c = .ok st →
       (st.message_integrity = none ∨
        (∃ hsh, st.message_integrity = some hsh ∧
           sha1 (msg.take (msg.length - 24)) = hsh)) →
       (st.mapped_address = none ∨ st.source_address = none ∨ st.changed_address = none) →
       (read_binding_response sha1 msg c = .error ⟨.invalidData, "MappedAddress missing!"⟩ ∨
        read_binding_response sha1 msg c = .error ⟨.invalidData, "SourceAddress missing!"⟩ ∨
        read_binding_response sha1 msg c = .error ⟨.invalidData, "ChangedAddress missing!"⟩)) ∧
    (∀ (sha1 : List Nat → List Nat) (msg c : List Nat) (st : RespState) (hsh : List Nat),
       read_attrs (c.length + 1) {} c = .ok st →
       st.message_integrity = some hsh →
       sha1 (msg.take (msg.length - 24)) ≠ hsh →
       read_binding_response sha1 msg c = .error ⟨.invalidData, "Message integrity violated!"⟩) ∧
    (StunCodec.decode zeroHash validResponseBytes = some (.ok (0, .bind sampleResponse)) ∧
     StunCodec.decode zeroHash (validResponseBytes ++ [0xff, 0xff, 0x00, 0x04, 9, 9, 9, 9]) =
       some (.ok (0, .bind sampleResponse))) := by
  refine ⟨?_, ?_, rfl, rfl⟩
  · intro sha1 msg c st hloop hint hmiss
    have hfin := finishResponse_missing st hmiss
    rcases hint with hmi | ⟨hsh, hmi, hmatch⟩
    · have heq : read_binding_response sha1 msg c = finishResponse st := by
        simp [read_binding_response, hloop, hmi]
      rw [heq]
      exact hfin
    · have heq : read_binding_response sha1 msg c = finishResponse st := by
        simp [read_binding_response, hloop, hmi, hmatch]
      rw [heq]
      exact hfin
  · intro sha1 msg c st hsh hloop hmi hne
    simp [read_binding_response, hloop, hmi, hne]

/-- C6 counterexample: a Binding Response whose attribute stream leaves
every mandatory address unset but carries a MessageIntegrity attribute
with a mismatching hash does not fail with a missing-mandatory error: the
integrity check runs first and decoding fails with "Message integrity
violated!". -/
theorem missing_mandatory_integrity_counterexample :
    StunCodec.decode zeroHash
      [0x01, 0x01, 0x00, 0x18,
       0, 0, 0, 0, 0, 0, 0, 0,
       0, 0, 0, 0, 0, 0, 0, 0,
       0x00, 0x08, 0x00, 0x14,
       0, 0, 0, 0, 0, 0, 0, 0, 0, 0,
       0, 0, 0, 0, 0, 0, 0, 0, 0, 0] =
      some (.error ⟨.invalidData, "Message integrity violated!"⟩) := rfl

/-- C6 witness: a stream carrying only MappedAddress (no integrity hash)
fails with a missing-mandatory error, and a stream carrying only a
mismatching MessageIntegrity fails with the integrity error. -/
theorem missing_mandatory_and_unknown_optional_witness :
    (read_binding_response zeroHash []
       [0x00, 0x01, 0x00, 0x08, 0x00, 0x01, 0x00, 80, 1, 2, 3, 4] =
       .error ⟨.invalidData, "MappedAddress missing!"⟩ ∨
     read_binding_response zeroHash []
       [0x00, 0x01, 0x00, 0x08, 0x00, 0x01, 0x00, 80, 1, 2, 3, 4] =
       .error ⟨.invalidData, "SourceAddress missing!"⟩ ∨
     read_binding_response zeroHash []
       [0x00, 0x01, 0x00, 0x08, 0x00, 0x01, 0x00, 80, 1, 2, 3, 4] =
       .error ⟨.invalidData, "ChangedAddress missing!"⟩) ∧
    read_binding_response zeroHash
      [9, 9, 9, 9, 9, 9, 9, 9, 9, 9, 9, 9, 9, 9, 9, 9, 9, 9, 9, 9,
       0x00, 0x08, 0x00, 0x14,
       0, 0, 0, 0, 0, 0, 0, 0, 0, 0, 0, 0, 0, 0, 0, 0, 0, 0, 0, 0]
      ([0x00, 0x08, 0x00, 0x14,
        0, 0, 0, 0, 0, 0, 0, 0, 0, 0, 0, 0, 0, 0, 0, 0, 0, 0, 0, 0]) =
      .error ⟨.invalidData, "Message integrity violated!"⟩ :=
  ⟨missing_mandatory_and_unknown_optional.1 zeroHash []
    [0x00, 0x01, 0x00, 0x08, 0x00, 0x01, 0x00, 80, 1, 2, 3, 4]
    ⟨some (SockAddr.v4 1 2 3 4 80), none, none, none, none⟩
    rfl (Or.inl rfl) (Or.inr (Or.inl rfl)),
   missing_mandatory_and_unknown_optional.2.1 zeroHash
    [9, 9, 9, 9, 9, 9, 9, 9, 9, 9, 9, 9, 9, 9, 9, 9, 9, 9, 9, 9,
     0x00, 0x08, 0x00, 0x14,
     0, 0, 0, 0, 0, 0, 0, 0, 0, 0, 0, 0, 0, 0, 0, 0, 0, 0, 0, 0]
    [0x00, 0x08, 0x00, 0x14,
     0, 0, 0, 0, 0, 0, 0, 0, 0, 0, 0, 0, 0, 0, 0, 0, 0, 0, 0, 0]
    ⟨none, none, none, some (List.replicate 20 0), none⟩
    (List.replicate 20 0) rfl rfl (by decide)⟩

/-- C7: an attribute whose type code is not in the known dispatch table
fails with "Unknown mandatory field" when the code is at most 0x7fff, and
is skipped (cursor advanced past the declared length, yielding
`UnknownOptional`) when the code is above 0x7fff. -/
theorem unknown_attribute_mandatory_optional_boundary :
    (∀ (t1 t0 l1 l0 : Nat) (B : List Nat),
       t1 * 256 + t0 ≠ MAPPED_ADDRESS → t1 * 256 + t0 ≠ RESPONSE_ADDRESS →
       t1 * 256 + t0 ≠ CHANGED_ADDRESS → t1 * 256 + t0 ≠ SOURCE_ADDRESS →
       t1 * 256 + t0 ≠ REFLECTED_FROM → t1 * 256 + t0 ≠ MESSAGE_INTEGRITY →
       t1 * 256 + t0 ≠ CHANGE_REQUEST →
       t1 * 256 + t0 ≤ 0x7fff →
       Attribute.read (t1 :: t0 :: l1 :: l0 :: B) =
         .error ⟨.invalidData, "Unknown mandatory field"⟩) ∧
    (∀ (t1 t0 l1 l0 : Nat) (B : List Nat),
       0x7fff < t1 * 256 + t0 →
       Attribute.read (t1 :: t0 :: l1 :: l0 :: B) =
         .ok (.unknownOptional, B.drop (l1 * 256 + l0))) := by
  constructor
  · intro t1 t0 l1 l0 B h1 h2 h3 h4 h5 h6 h7 h8
    simp only [MAPPED_ADDRESS, RESPONSE_ADDRESS, CHANGED_ADDRESS, SOURCE_ADDRESS,
      REFLECTED_FROM, MESSAGE_INTEGRITY, CHANGE_REQUEST] at h1 h2 h3 h4 h5 h6 h7
    simp [Attribute.read, readU16, MAPPED_ADDRESS, RESPONSE_ADDRESS, CHANGED_ADDRESS,
      SOURCE_ADDRESS, REFLECTED_FROM, MESSAGE_INTEGRITY, CHANGE_REQUEST,
      h1, h2, h3, h4, h5, h6, h7, h8]
  · intro t1 t0 l1 l0 B h
    have h1 : t1 * 256 + t0 ≠ 1 := by omega
    have h2 : t1 * 256 + t0 ≠ 2 := by omega
    have h3 : t1 * 256 + t0 ≠ 5 := by omega
    have h4 : t1 * 256 + t0 ≠ 4 := by omega
    have h5 : t1 * 256 + t0 ≠ 11 := by omega
    have h6 : t1 * 256 + t0 ≠ 8 := by omega
    have h7 : t1 * 256 + t0 ≠ 3 := by omega
    have h8 : ¬(t1 * 256 + t0 ≤ 32767) := by omega
    simp [Attribute.read, readU16, MAPPED_ADDRESS, RESPONSE_ADDRESS, CHANGED_ADDRESS,
      SOURCE_ADDRESS, REFLECTED_FROM, MESSAGE_INTEGRITY, CHANGE_REQUEST,
      h1, h2, h3, h4, h5, h6, h7, h8]

/-- C7 witness: type code 0x0006 (not dispatched) fails as mandatory;
type code 0xffff skips its two declared body bytes. -/
theorem unknown_attribute_mandatory_optional_boundary_witness :
    Attribute.read [0x00, 0x06, 0x00, 0x00] =
      .error ⟨.invalidData, "Unknown mandatory field"⟩ ∧
    Attribute.read [0xff, 0xff, 0x00, 0x02, 9, 9, 9] =
      .ok (.unknownOptional, [9]) := by
  constructor
  · exact unknown_attribute_mandatory_optional_boundary.1 0 6 0 0 []
      (by decide) (by decide) (by decide) (by decide) (by decide) (by decide)
      (by decide) (by decide)
  · have h := unknown_attribute_mandatory_optional_boundary.2 255 255 0 2 [9, 9, 9]
      (by decide)
    simpa using h

set_option maxHeartbeats 2000000 in
/-- C10: known attribute types read fixed-size bodies and ignore the
declared 16-bit length entirely (the read result is unchanged under any
replacement of the two length bytes); successful reads consume exactly
4+8 bytes for address attributes, 4+4 for a change request and 4+20 for
message integrity; and an unrecognized-optional attribute consumes its
declared length, where skipping past the end of the buffer does not fail
and leaves an empty cursor on which the next read sees end-of-buffer. -/
theorem known_attributes_ignore_declared_length :
    (∀ (t1 t0 l1 l0 l1x l0x : Nat) (B : List Nat),
       (t1 * 256 + t0 = MAPPED_ADDRESS ∨ t1 * 256 + t0 = RESPONSE_ADDRESS ∨
        t1 * 256 + t0 = CHANGED_ADDRESS ∨ t1 * 256 + t0 = SOURCE_ADDRESS ∨
        t1 * 256 + t0 = REFLECTED_FROM ∨ t1 * 256 + t0 = MESSAGE_INTEGRITY ∨
        t1 * 256 + t0 = CHANGE_REQUEST) →
       Attribute.read (t1 :: t0 :: l1 :: l0 :: B) =
         Attribute.read (t1 :: t0 :: l1x :: l0x :: B)) ∧
    (∀ (c c2 : List Nat) (attr : Attribute),
       Attribute.read c = .ok (attr, c2) →
       (match attr with
        | .mappedAddress _ => c2 = c.drop 12
        | .responseAddress _ => c2 = c.drop 12
        | .changedAddress _ => c2 = c.drop 12
        | .sourceAddress _ => c2 = c.drop 12
        | .reflectedFrom _ => c2 = c.drop 12
        | .changeRequest _ => c2 = c.drop 8
        | .messageIntegrity _ => c2 = c.drop 24
        | _ => True)) ∧
    (∀ (t1 t0 l1 l0 : Nat) (B : List Nat),
       0x7fff < t1 * 256 + t0 → B.length < l1 * 256 + l0 →
       Attribute.read (t1 :: t0 :: l1 :: l0 :: B) =
         .ok (.unknownOptional, B.drop (l1 * 256 + l0)) ∧
       B.drop (l1 * 256 + l0) = [] ∧
       Attribute.read (B.drop (l1 * 256 + l0)) = .error eofError) := by
  refine ⟨?_, ?_, ?_⟩
  · intro t1 t0 l1 l0 l1x l0x B hk
    rcases hk with h | h | h | h | h | h | h <;>
      simp [Attribute.read, readU16, MAPPED_ADDRESS, RESPONSE_ADDRESS, CHANGED_ADDRESS,
        SOURCE_ADDRESS, REFLECTED_FROM, MESSAGE_INTEGRITY, CHANGE_REQUEST, h]
  · intro c c2 attr h
    simp only [Attribute.read] at h
    split at h
    · simp at h
    · rename_i typ c1 heq1
      split at h
      · simp at h
      · rename_i len cB heq2
        obtain ⟨e1, l1⟩ := readU16_ok heq1
        obtain ⟨e2, l2⟩ := readU16_ok heq2
        split at h
        · -- MappedAddress
          split at h
          · simp at h
          · rename_i s c3 heq3
            simp only [Except.ok.injEq, Prod.mk.injEq] at h
            obtain ⟨rfl, rfl⟩ := h
            obtain ⟨e3, l3⟩ := read_address_ok heq3
            subst e3; subst e2; subst e1
            simp [List.drop_drop]
        · split at h
          · -- ResponseAddress
            split at h
            · simp at h
            · rename_i s c3 heq3
              simp only [Except.ok.injEq, Prod.mk.injEq] at h
              obtain ⟨rfl, rfl⟩ := h
              obtain ⟨e3, l3⟩ := read_address_ok heq3
              subst e3; subst e2; subst e1
              simp [List.drop_drop]
          · split at h
            · -- ChangedAddress
              split at h
              · simp at h
              · rename_i s c3 heq3
                simp only [Except.ok.injEq, Prod.mk.injEq] at h
                obtain ⟨rfl, rfl⟩ := h
                obtain ⟨e3, l3⟩ := read_address_ok heq3
                subst e3; subst e2; subst e1
                simp [List.drop_drop]
            · split at h
              · -- SourceAddress
                split at h
                · simp at h
                · rename_i s c3 heq3
                  simp only [Except.ok.injEq, Prod.mk.injEq] at h
                  obtain ⟨rfl, rfl⟩ := h
                  obtain ⟨e3, l3⟩ := read_address_ok heq3
                  subst e3; subst e2; subst e1
                  simp [List.drop_drop]
              · split at h
                · -- ReflectedFrom
                  split at h
                  · simp at h
                  · rename_i s c3 heq3
                    simp only [Except.ok.injEq, Prod.mk.injEq] at h
                    obtain ⟨rfl, rfl⟩ := h
                    obtain ⟨e3, l3⟩ := read_address_ok heq3
                    subst e3; subst e2; subst e1
                    simp [List.drop_drop]
                · split at h
                  · -- MessageIntegrity
                    split at h
                    · simp at h
                    · rename_i hash c3 heq3
                      simp only [Except.ok.injEq, Prod.mk.injEq] at h
                      obtain ⟨rfl, rfl⟩ := h
                      obtain ⟨e3, l3⟩ := readExact_ok heq3
                      subst e3; subst e2; subst e1
                      simp [List.drop_drop]
                  · split at h
                    · -- ChangeRequest
                      split at h
                      · simp at h
                      · rename_i w c3 heq3
                        obtain ⟨e3, l3⟩ := readU32_ok heq3
                        split at h
                        · simp only [Except.ok.injEq, Prod.mk.injEq] at h
                          obtain ⟨rfl, rfl⟩ := h
                          subst e3; subst e2; subst e1
                          simp [List.drop_drop]
                        · split at h
                          · simp only [Except.ok.injEq, Prod.mk.injEq] at h
                            obtain ⟨rfl, rfl⟩ := h
                            subst e3; subst e2; subst e1
                            simp [List.drop_drop]
                          · split at h
                            · simp only [Except.ok.injEq, Prod.mk.injEq] at h
                              obtain ⟨rfl, rfl⟩ := h
                              subst e3; subst e2; subst e1
                              simp [List.drop_drop]
                            · simp at h
                    · split at h
                      · -- unknown mandatory
                        simp at h
                      · -- unknown optional
                        simp only [Except.ok.injEq, Prod.mk.injEq] at h
                        obtain ⟨rfl, rfl⟩ := h
                        trivial
  · intro t1 t0 l1 l0 B h hlen
    have h1 : t1 * 256 + t0 ≠ 1 := by omega
    have h2 : t1 * 256 + t0 ≠ 2 := by omega
    have h3 : t1 * 256 + t0 ≠ 5 := by omega
    have h4 : t1 * 256 + t0 ≠ 4 := by omega
    have h5 : t1 * 256 + t0 ≠ 11 := by omega
    have h6 : t1 * 256 + t0 ≠ 8 := by omega
    have h7 : t1 * 256 + t0 ≠ 3 := by omega
    have h8 : ¬(t1 * 256 + t0 ≤ 32767) := by omega
    have hd : B.drop (l1 * 256 + l0) = [] := List.drop_eq_nil_of_le (by omega)
    refine ⟨?_, hd, ?_⟩
    · simp [Attribute.read, readU16, MAPPED_ADDRESS, RESPONSE_ADDRESS, CHANGED_ADDRESS,
        SOURCE_ADDRESS, REFLECTED_FROM, MESSAGE_INTEGRITY, CHANGE_REQUEST,
        h1, h2, h3, h4, h5, h6, h7, h8]
    · rw [hd]
      rfl

/-- C10 witness: a MappedAddress read is unchanged when the declared
length 0x0008 is replaced by 0x0063, consumes exactly 12 bytes, and an
optional attribute with declared length 0x0100 over a 3-byte remainder
skips to an empty cursor where the next read sees end-of-buffer. -/
theorem known_attributes_ignore_declared_length_witness :
    Attribute.read [0x00, 0x01, 0x00, 0x00, 0x00, 0x01, 0x00, 80, 1, 2, 3, 4, 7, 7] =
      Attribute.read [0x00, 0x01, 0x00, 0x63, 0x00, 0x01, 0x00, 80, 1, 2, 3, 4, 7, 7] ∧
    [7, 7] = List.drop 12 [0x00, 0x01, 0x00, 0x08, 0x00, 0x01, 0x00, 80, 1, 2, 3, 4, 7, 7] ∧
    Attribute.read (List.drop (1 * 256 + 0) [1, 2, 3]) = .error eofError := by
  refine ⟨?_, ?_, ?_⟩
  · exact known_attributes_ignore_declared_length.1 0 1 0 0 0 0x63
      [0x00, 0x01, 0x00, 80, 1, 2, 3, 4, 7, 7] (Or.inl rfl)
  · exact known_attributes_ignore_declared_length.2.1
      [0x00, 0x01, 0x00, 0x08, 0x00, 0x01, 0x00, 80, 1, 2, 3, 4, 7, 7] [7, 7]
      (.mappedAddress (SockAddr.v4 1 2 3 4 80)) rfl
  · exact (known_attributes_ignore_declared_length.2.2 255 255 1 0 [1, 2, 3]
      (by decide) (by decide)).2.2
